import Mathlib

/-!
Verification of the polar-plant EC dashboard (main.py).

The dashboard loads one environment CSV per site and one multi-sheet
growth workbook, aggregates them (per-site means, per-EC-level means,
an argmax "optimal EC"), renders charts, and offers CSV/XLSX exports.
This file is a shallow embedding of the data model and of every pure
data transformation of the script, together with proofs of the
specification claims.  Numeric cell values are embedded as rationals;
fallible operations return Except or Option; the Unicode normalization
functions of the unicodedata library are parameters, with the laws the
Unicode standard guarantees for NFC/NFD stated as explicit hypotheses.
-/

/-- A row of a per-site environment CSV as parsed by pd.read_csv:
columns time, temperature, humidity, ph, ec (measured). -/
structure EnvRowRaw where
  time : String
  temperature : ℚ
  humidity : ℚ
  ph : ℚ
  ec : ℚ
deriving DecidableEq

/-- An environment row after load_environment_data attaches the school
column. -/
structure EnvRow where
  time : String
  temperature : ℚ
  humidity : ℚ
  ph : ℚ
  ec : ℚ
  school : String
deriving DecidableEq

/-- A row of one growth-workbook sheet as parsed by ExcelFile.parse:
fresh weight, leaf count, shoot length. -/
structure GrowthRowRaw where
  freshWeight : ℚ
  leafCount : ℚ
  shootLength : ℚ
deriving DecidableEq

/-- A growth row after load_growth_data attaches the school column and
the target-EC column (None when the sheet name has no entry in the
reference table). -/
structure GrowthRow where
  freshWeight : ℚ
  leafCount : ℚ
  shootLength : ℚ
  school : String
  ec : Option ℚ
deriving DecidableEq

/-- SCHOOL_EC_INFO: the fixed site-to-target-EC reference table, in its
insertion order. -/
def SCHOOL_EC_INFO : List (String × ℚ) :=
  [("송도고", 1), ("하늘고", 2), ("아라고", 4), ("동산고", 8)]

/-- SCHOOL_COLOR: the fixed site-to-display-color reference table. -/
def SCHOOL_COLOR : List (String × String) :=
  [("송도고", "#1f77b4"), ("하늘고", "#2ca02c"), ("아라고", "#ff7f0e"), ("동산고", "#d62728")]

/-- Python dict lookup on an association list (keys in insertion
order); none models a KeyError / dict.get default. -/
def alookup {α : Type} (key : String) : List (String × α) → Option α
  | [] => none
  | (k, v) :: rest => if k = key then some v else alookup key rest

/-- The four fixed site keys, in iteration order of SCHOOL_EC_INFO. -/
def siteKeys : List String := SCHOOL_EC_INFO.map Prod.fst

/-- A directory entry as seen through Path.iterdir.  envRows is what
pd.read_csv would parse from the entry, sheets is the list of
(sheet name, parsed rows) pairs an ExcelFile on the entry would hold. -/
structure DirEntry where
  name : String
  isFile : Bool
  envRows : List EnvRowRaw
  sheets : List (String × List GrowthRowRaw)
deriving DecidableEq

/-- The two normalization functions of the unicodedata library used by
the script.  They are kept abstract: the script only calls
unicodedata.normalize with the "NFC" and "NFD" forms. -/
structure Unicodedata where
  nfc : String → String
  nfd : String → String

/-- The laws the Unicode standard guarantees for canonical
normalization: both forms are idempotent and each form is invariant
under pre-composing the other (two strings are canonically equivalent
iff their NFC forms agree iff their NFD forms agree). -/
structure LawfulNormalization (u : Unicodedata) : Prop where
  nfc_nfc : ∀ s, u.nfc (u.nfc s) = u.nfc s
  nfc_nfd : ∀ s, u.nfc (u.nfd s) = u.nfc s
  nfd_nfd : ∀ s, u.nfd (u.nfd s) = u.nfd s
  nfd_nfc : ∀ s, u.nfd (u.nfc s) = u.nfd s

/-- The per-entry match test of find_file_by_name: the entry is a file
and its name agrees with the target under NFC or under NFD. -/
def matchesTarget (u : Unicodedata) (target_nfc target_nfd : String) (f : DirEntry) : Bool :=
  f.isFile && (u.nfc f.name == target_nfc || u.nfd f.name == target_nfd)

/-- find_file_by_name: normalize the target to NFC and NFD once, then
return the first file entry of the directory whose name matches under
either form; None when no entry matches. -/
def find_file_by_name (u : Unicodedata) (directory : List DirEntry) (target_name : String) :
    Option DirEntry :=
  directory.find? (matchesTarget u (u.nfc target_name) (u.nfd target_name))

/-- Renaming every entry of a directory by a normalization function
(used to state invariance under on-disk normal form). -/
def renameBy (g : String → String) (f : DirEntry) : DirEntry :=
  { f with name := g f.name }


/-- Path.suffix as implemented by pathlib: the substring of the entry
name from its last dot onward, provided that dot is neither the first
nor the last character; empty otherwise.  Computed over the character
list, tracking the index of the last dot seen. -/
def lastDotIdxAux : Nat → Option Nat → List Char → Option Nat
  | _, acc, [] => acc
  | i, acc, c :: cs => lastDotIdxAux (i + 1) (if c = '.' then some i else acc) cs

/-- Path.suffix of a filename (see lastDotIdxAux). -/
def pathSuffix (name : String) : String :=
  match lastDotIdxAux 0 none name.data with
  | none => ""
  | some i => if 0 < i ∧ i < name.data.length - 1 then String.mk (name.data.drop i) else ""

/-- Lowercasing a string character-wise (str.lower as used here). -/
def lowerString (s : String) : String := String.mk (s.data.map Char.toLower)

/-- The scan test of load_growth_data: suffix, lowercased, equals
".xlsx".  The entry kind is not checked, faithfully to the script. -/
def isXlsxEntry (f : DirEntry) : Bool := lowerString (pathSuffix f.name) == ".xlsx"

/-- df["school"] = school on an environment row. -/
def tagEnvRow (school : String) (r : EnvRowRaw) : EnvRow :=
  { time := r.time, temperature := r.temperature, humidity := r.humidity, ph := r.ph,
    ec := r.ec, school := school }

/-- The deterministic per-site environment filename pattern. -/
def envFilename (school : String) : String := school ++ "_환경데이터.csv"

/-- The error message st.error shows for a missing environment file. -/
def missingEnvMsg (school : String) : String :=
  "환경 데이터 파일을 찾을 수 없습니다: " ++ envFilename school

/-- The body of load_environment_data as a recursion over the school
keys still to process: resolve each per-site file, fail with the
missing filename on the first resolution failure, otherwise read the
rows and tag them with the school. -/
def loadEnvAux (u : Unicodedata) (dataDir : List DirEntry) :
    List String → Except String (List (String × List EnvRow))
  | [] => .ok []
  | school :: rest =>
    match find_file_by_name u dataDir (envFilename school) with
    | none => .error (missingEnvMsg school)
    | some f =>
      match loadEnvAux u dataDir rest with
      | .error e => .error e
      | .ok m => .ok ((school, f.envRows.map (tagEnvRow school)) :: m)

/-- load_environment_data: iterate SCHOOL_EC_INFO.keys(); error (None
plus an st.error naming the filename) when any per-site file is
unresolvable, otherwise the site-to-table mapping in key order. -/
def load_environment_data (u : Unicodedata) (dataDir : List DirEntry) :
    Except String (List (String × List EnvRow)) :=
  loadEnvAux u dataDir siteKeys

/-- Attaching df["school"] = sheet and df["ec"] =
SCHOOL_EC_INFO.get(sheet, None) to a growth row. -/
def tagGrowthRow (sheet : String) (r : GrowthRowRaw) : GrowthRow :=
  { freshWeight := r.freshWeight, leafCount := r.leafCount, shootLength := r.shootLength,
    school := sheet, ec := alookup sheet SCHOOL_EC_INFO }

/-- load_growth_data: take the first directory entry with suffix
".xlsx" (case-insensitive); error when none exists; otherwise load
every sheet of that workbook, tagging rows with the sheet name and the
looked-up target EC. -/
def load_growth_data (dataDir : List DirEntry) :
    Except String (List (String × List GrowthRow)) :=
  match dataDir.find? isXlsxEntry with
  | none => .error "생육 결과 XLSX 파일을 찾을 수 없습니다."
  | some x => .ok (x.sheets.map (fun s => (s.1, s.2.map (tagGrowthRow s.1))))

/-- Arithmetic mean of a list of rationals (Series.mean). -/
def meanQ (l : List ℚ) : ℚ := l.sum / (l.length : ℚ)

/-- pd.concat(env_data.values()): the per-site environment tables
concatenated row-wise in mapping order. -/
def envAllRows (env_data : List (String × List EnvRow)) : List EnvRow :=
  (env_data.map Prod.snd).flatten

/-- pd.concat(growth_data.values()): the per-sheet growth tables
concatenated row-wise in mapping order. -/
def growthAll (growth_data : List (String × List GrowthRow)) : List GrowthRow :=
  (growth_data.map Prod.snd).flatten

/-- One row of the Overview tab table: school, target EC, plant count,
display color. -/
structure OverviewRow where
  school : String
  ecTarget : ℚ
  count : Nat
  color : String
deriving DecidableEq

/-- The Overview-tab loop over growth_data.items(): each school is
looked up in SCHOOL_EC_INFO and SCHOOL_COLOR by direct indexing, so an
unknown key raises (modelled as an error carrying the offending key). -/
def overviewRows : List (String × List GrowthRow) → Except String (List OverviewRow)
  | [] => .ok []
  | (school, df) :: rest =>
    match alookup school SCHOOL_EC_INFO with
    | none => .error school
    | some ecT =>
      match alookup school SCHOOL_COLOR with
      | none => .error school
      | some color =>
        match overviewRows rest with
        | .error e => .error e
        | .ok rs => .ok (OverviewRow.mk school ecT df.length color :: rs)

/-- The four Overview metric cards: total plant count, mean temperature
and humidity over the concatenated environment rows, and the hardcoded
optimal-EC constant 2.0. -/
structure OverviewMetrics where
  total_plants : Nat
  avg_temp : ℚ
  avg_hum : ℚ
  optimal_ec : ℚ
deriving DecidableEq

/-- The metric-card values computed in the Overview tab. -/
def overviewMetrics (env_data : List (String × List EnvRow))
    (growth_data : List (String × List GrowthRow)) : OverviewMetrics :=
  { total_plants := (growth_data.map (fun p => p.2.length)).sum,
    avg_temp := meanQ ((envAllRows env_data).map EnvRow.temperature),
    avg_hum := meanQ ((envAllRows env_data).map EnvRow.humidity),
    optimal_ec := 2 }

/-- The whole Overview tab: the table loop runs first, so a key error
there prevents the metric cards from rendering. -/
def overviewTab (env_data : List (String × List EnvRow))
    (growth_data : List (String × List GrowthRow)) :
    Except String (List OverviewRow × OverviewMetrics) :=
  match overviewRows growth_data with
  | .error e => .error e
  | .ok rs => .ok (rs, overviewMetrics env_data growth_data)

/-- Insertion of a rational into a sorted list (helper for the sorted
group keys a pandas groupby produces). -/
def insertSorted (x : ℚ) : List ℚ → List ℚ
  | [] => [x]
  | y :: ys => if x ≤ y then x :: y :: ys else y :: insertSorted x ys

/-- Sorting a list of rationals ascending by repeated insertion. -/
def sortQ (l : List ℚ) : List ℚ := l.foldr insertSorted []

/-- The group keys of growth_all.groupby("ec"): the distinct non-null
target-EC values, sorted ascending (pandas sorts group keys and drops
null keys). -/
def ecKeys (rows : List GrowthRow) : List ℚ :=
  sortQ (rows.filterMap GrowthRow.ec).dedup

/-- The rows of one EC group: the rows whose target EC equals the key.
Null-EC rows belong to no group. -/
def ecRows (rows : List GrowthRow) (k : ℚ) : List GrowthRow :=
  rows.filter (fun r => r.ec = some k)

/-- One aggregated cell of a groupby("ec")[col].mean(). -/
def ecCell (f : GrowthRow → ℚ) (rows : List GrowthRow) (k : ℚ) : ℚ :=
  meanQ ((ecRows rows k).map f)

/-- growth_all.groupby("ec")[col].mean() as a list of
(EC key, group mean) pairs in key order. -/
def ecGroupBy (f : GrowthRow → ℚ) (rows : List GrowthRow) : List (ℚ × ℚ) :=
  (ecKeys rows).map (fun k => (k, ecCell f rows k))

/-- ec_group: the per-EC-level mean fresh weight table of the Growth
tab. -/
def ec_group (rows : List GrowthRow) : List (ℚ × ℚ) :=
  ecGroupBy GrowthRow.freshWeight rows

/-- growth_all.groupby("ec").size(): per-EC-level sample counts. -/
def ecGroupSize (rows : List GrowthRow) : List (ℚ × Nat) :=
  (ecKeys rows).map (fun k => (k, (ecRows rows k).length))

/-- The Series.idxmax scan over the group-mean column: walk the table
keeping the current best row, replacing it only on a strictly greater
mean, so the first row attaining the maximum wins. -/
def pickMax (g : ℚ × ℚ) (gs : List (ℚ × ℚ)) : ℚ × ℚ :=
  gs.foldl (fun best p => if p.2 > best.2 then p else best) g

/-- max_ec: the EC key of the idxmax row of ec_group; none on an empty
table (where idxmax would raise). -/
def max_ec (rows : List GrowthRow) : Option ℚ :=
  match ec_group rows with
  | [] => none
  | g :: gs => some (pickMax g gs).1

/-- Everything the script renders after a successful load, as data:
the Overview tab, the schools plotted in the time-series section (the
only place the sidebar filter is read), the environment CSV export
content, the per-EC mean table with its optimal-EC card, and the
growth XLSX export content. -/
structure Dashboard where
  overview : Except String (List OverviewRow × OverviewMetrics)
  timeseriesSchools : List String
  envCsv : List EnvRow
  ecGroups : List (ℚ × ℚ)
  optimalEcCard : Option ℚ
  growthXlsx : List GrowthRow

/-- The render pipeline on loaded data plus the sidebar selection. -/
def renderDashboard (env_data : List (String × List EnvRow))
    (growth_data : List (String × List GrowthRow)) (school_option : String) : Dashboard :=
  { overview := overviewTab env_data growth_data,
    timeseriesSchools := if school_option = "전체" then env_data.map Prod.fst else [school_option],
    envCsv := envAllRows env_data,
    ecGroups := ec_group (growthAll growth_data),
    optimalEcCard := max_ec (growthAll growth_data),
    growthXlsx := growthAll growth_data }

/-- One session: run both loaders, stop (st.stop, rendering nothing)
when either returns None, otherwise render the dashboard. -/
def runSession (u : Unicodedata) (dataDir : List DirEntry) (school_option : String) :
    Option Dashboard :=
  match load_environment_data u dataDir, load_growth_data dataDir with
  | .ok env, .ok gd => some (renderDashboard env gd school_option)
  | _, _ => none

/-- The identity normalization (a valid instance of the NFC/NFD laws),
used to instantiate hypotheses on concrete inputs. -/
def uid : Unicodedata := { nfc := fun s => s, nfd := fun s => s }

/-- A one-file sample directory for concrete evaluation. -/
def sampleDirC3 : List DirEntry :=
  [{ name := "a.csv", isFile := true, envRows := [], sheets := [] }]

/-- A sample environment CSV row for concrete evaluations. -/
def sampleEnvRowRaw : EnvRowRaw :=
  { time := "2024-01-01 00:00", temperature := 10, humidity := 50, ph := 7, ec := 1 }

/-- A concrete on-disk environment file for one site. -/
def envEntry (school : String) : DirEntry :=
  { name := envFilename school, isFile := true, envRows := [sampleEnvRowRaw], sheets := [] }

/-- A concrete workbook whose single sheet name is not a site key. -/
def strangeWorkbookEntry : DirEntry :=
  { name := "생육결과.xlsx", isFile := true, envRows := [],
    sheets := [("엑스고", [{ freshWeight := 5, leafCount := 3, shootLength := 40 }])] }

/-- A concrete data directory: all four environment files plus a
workbook whose sheet is not one of the four sites. -/
def dirC2 : List DirEntry :=
  [envEntry "송도고", envEntry "하늘고", envEntry "아라고", envEntry "동산고",
    strangeWorkbookEntry]

/-- Loaded growth rows realizing the group means of the worked example
of the claim: means 5.0, 9.2, 3.1, 2.0 at EC levels 1, 2, 4, 8. -/
def exampleGrowthRows : List GrowthRow :=
  [{ freshWeight := 5, leafCount := 3, shootLength := 40, school := "송도고", ec := some 1 },
    { freshWeight := 46/5, leafCount := 5, shootLength := 55, school := "하늘고", ec := some 2 },
    { freshWeight := 31/10, leafCount := 2, shootLength := 30, school := "아라고", ec := some 4 },
    { freshWeight := 2, leafCount := 2, shootLength := 25, school := "동산고", ec := some 8 }]

/-- A concrete loaded growth mapping with one normal sheet and one
sheet outside the reference table (its rows carry a null EC). -/
def gdC7 : List (String × List GrowthRow) :=
  [("하늘고", [{ freshWeight := 9, leafCount := 3, shootLength := 40, school := "하늘고", ec := some 2 }]),
    ("엑스고", [{ freshWeight := 100, leafCount := 9, shootLength := 90, school := "엑스고", ec := none }])]

/-- An environment row with a given temperature, for mean examples. -/
def envRowT (t : ℚ) (school : String) : EnvRow :=
  { time := "", temperature := t, humidity := 50, ph := 7, ec := 1, school := school }

/-- The per-site mean temperatures of a loaded environment mapping. -/
def perSiteTempMeans (env_data : List (String × List EnvRow)) : List ℚ :=
  env_data.map (fun p => meanQ (p.2.map EnvRow.temperature))

/-- The unweighted mean of the per-site mean temperatures: the
alternative aggregation the claim contrasts with the flattened mean. -/
def meanOfSiteTempMeans (env_data : List (String × List EnvRow)) : ℚ :=
  meanQ (perSiteTempMeans env_data)

/-- Four sites with unequal row counts whose flattened mean differs
from the mean of per-site means. -/
def envC9diff : List (String × List EnvRow) :=
  [("송도고", [envRowT 0 "송도고"]), ("하늘고", [envRowT 0 "하늘고"]),
    ("아라고", [envRowT 0 "아라고"]), ("동산고", [envRowT 10 "동산고", envRowT 10 "동산고"])]

/-- Four sites with unequal row counts but identical temperatures, so
the flattened mean and the mean of per-site means coincide. -/
def envC9eq : List (String × List EnvRow) :=
  [("송도고", [envRowT 10 "송도고"]), ("하늘고", [envRowT 10 "하늘고"]),
    ("아라고", [envRowT 10 "아라고"]), ("동산고", [envRowT 10 "동산고", envRowT 10 "동산고"])]

/-! Theorems: helper lemmas first, then one theorem per claim with
its witnesses and counterexamples. -/

theorem nfd_eq_iff_nfc_eq {u : Unicodedata} (hu : LawfulNormalization u) (a b : String) :
    u.nfd a = u.nfd b ↔ u.nfc a = u.nfc b := by
  constructor
  · intro h
    have := congrArg u.nfc h
    rwa [hu.nfc_nfd, hu.nfc_nfd] at this
  · intro h
    have := congrArg u.nfd h
    rwa [hu.nfd_nfc, hu.nfd_nfc] at this

theorem matchesTarget_collapse {u : Unicodedata} (hu : LawfulNormalization u)
    (t : String) (f : DirEntry) :
    matchesTarget u (u.nfc t) (u.nfd t) f = (f.isFile && (u.nfc f.name == u.nfc t)) := by
  unfold matchesTarget
  by_cases h : u.nfc f.name = u.nfc t
  · have e1 : (u.nfc f.name == u.nfc t) = true := beq_iff_eq.mpr h
    rw [e1]
    simp
  · have h2 : ¬ u.nfd f.name = u.nfd t := fun hd => h ((nfd_eq_iff_nfc_eq hu _ _).mp hd)
    have e1 : (u.nfc f.name == u.nfc t) = false := beq_eq_false_iff_ne.mpr h
    have e2 : (u.nfd f.name == u.nfd t) = false := beq_eq_false_iff_ne.mpr h2
    rw [e1, e2]
    simp

theorem find_pred_congr {α : Type} (p q : α → Bool) (h : ∀ a, p a = q a) (l : List α) :
    l.find? p = l.find? q := by
  have : p = q := funext h
  rw [this]

theorem find_map_isSome {α : Type} (g : α → α) (p : α → Bool) (h : ∀ a, p (g a) = p a) :
    ∀ l : List α, ((l.map g).find? p).isSome = (l.find? p).isSome := by
  intro l
  induction l with
  | nil => rfl
  | cons x xs ih =>
    cases hx : p x with
    | true =>
      have hgx : p (g x) = true := by rw [h x, hx]
      simp [List.find?_cons_of_pos, hx, hgx]
    | false =>
      have hgx : p (g x) = false := by rw [h x, hx]
      rw [List.map_cons, List.find?_cons_of_neg _ (by simp [hgx]),
        List.find?_cons_of_neg _ (by simp [hx])]
      exact ih

/-- Claim C3: file resolution is invariant under Unicode canonical
normalization.  Replacing the target by its NFC or NFD form leaves the
resolved entry unchanged; normalizing every on-disk filename to NFC or
to NFD leaves found/not-found unchanged; and an entry is found exactly
when some file of the directory has a name canonically equivalent to
the target (same NFC form). -/
theorem C3_find_file_normalization_invariant (u : Unicodedata) (hu : LawfulNormalization u)
    (directory : List DirEntry) (target : String) :
    find_file_by_name u directory (u.nfc target) = find_file_by_name u directory target ∧
    find_file_by_name u directory (u.nfd target) = find_file_by_name u directory target ∧
    (find_file_by_name u (directory.map (renameBy u.nfc)) target).isSome
      = (find_file_by_name u directory target).isSome ∧
    (find_file_by_name u (directory.map (renameBy u.nfd)) target).isSome
      = (find_file_by_name u directory target).isSome ∧
    ((find_file_by_name u directory target).isSome = true ↔
      ∃ f ∈ directory, f.isFile = true ∧ u.nfc f.name = u.nfc target) := by
  refine ⟨?_, ?_, ?_, ?_, ?_⟩
  · unfold find_file_by_name
    apply find_pred_congr
    intro f
    unfold matchesTarget
    rw [hu.nfc_nfc, hu.nfd_nfc]
  · unfold find_file_by_name
    apply find_pred_congr
    intro f
    unfold matchesTarget
    rw [hu.nfc_nfd, hu.nfd_nfd]
  · unfold find_file_by_name
    apply find_map_isSome
    intro f
    unfold matchesTarget renameBy
    simp only
    rw [hu.nfc_nfc, hu.nfd_nfc]
  · unfold find_file_by_name
    apply find_map_isSome
    intro f
    unfold matchesTarget renameBy
    simp only
    rw [hu.nfc_nfd, hu.nfd_nfd]
  · unfold find_file_by_name
    rw [find_pred_congr _ _ (fun f => matchesTarget_collapse hu target f)]
    rw [List.find?_isSome]
    constructor
    · rintro ⟨f, hf, hp⟩
      rcases Bool.and_eq_true_iff.mp hp with ⟨h1, h2⟩
      exact ⟨f, hf, h1, beq_iff_eq.mp h2⟩
    · rintro ⟨f, hf, h1, h2⟩
      exact ⟨f, hf, by rw [h1, h2]; simp⟩

theorem uid_lawful : LawfulNormalization uid :=
  ⟨fun _ => rfl, fun _ => rfl, fun _ => rfl, fun _ => rfl⟩

/-- Witness for C3 at the identity normalization on a concrete
directory and target. -/
theorem C3_find_file_normalization_invariant_witness :
    find_file_by_name uid sampleDirC3 (uid.nfc "a.csv") = find_file_by_name uid sampleDirC3 "a.csv" ∧
    find_file_by_name uid sampleDirC3 (uid.nfd "a.csv") = find_file_by_name uid sampleDirC3 "a.csv" ∧
    (find_file_by_name uid (sampleDirC3.map (renameBy uid.nfc)) "a.csv").isSome
      = (find_file_by_name uid sampleDirC3 "a.csv").isSome ∧
    (find_file_by_name uid (sampleDirC3.map (renameBy uid.nfd)) "a.csv").isSome
      = (find_file_by_name uid sampleDirC3 "a.csv").isSome ∧
    ((find_file_by_name uid sampleDirC3 "a.csv").isSome = true ↔
      ∃ f ∈ sampleDirC3, f.isFile = true ∧ uid.nfc f.name = uid.nfc "a.csv") :=
  C3_find_file_normalization_invariant uid uid_lawful sampleDirC3 "a.csv"

theorem alookup_none_iff {α : Type} (key : String) :
    ∀ l : List (String × α), alookup key l = none ↔ key ∉ l.map Prod.fst := by
  intro l
  induction l with
  | nil => simp [alookup]
  | cons p rest ih =>
    obtain ⟨k, v⟩ := p
    simp only [alookup, List.map_cons, List.mem_cons]
    by_cases h : k = key
    · subst h
      simp
    · have h2 : ¬ key = k := fun e => h e.symm
      rw [if_neg h, ih]
      constructor
      · intro hn hor
        rcases hor with he | hm
        · exact h2 he
        · exact hn hm
      · intro hn hm
        exact hn (Or.inr hm)

theorem alookup_isSome_iff {α : Type} (key : String) (l : List (String × α)) :
    (alookup key l).isSome = true ↔ key ∈ l.map Prod.fst := by
  rw [← not_iff_not]
  rw [Option.not_isSome_iff_eq_none, alookup_none_iff]

theorem loadEnvAux_ok_keys (u : Unicodedata) (dataDir : List DirEntry) :
    ∀ (schools : List String) (m : List (String × List EnvRow)),
      loadEnvAux u dataDir schools = .ok m → m.map Prod.fst = schools := by
  intro schools
  induction schools with
  | nil =>
    intro m h
    simp only [loadEnvAux, Except.ok.injEq] at h
    subst h
    rfl
  | cons s rest ih =>
    intro m h
    simp only [loadEnvAux] at h
    cases hf : find_file_by_name u dataDir (envFilename s) with
    | none => rw [hf] at h; cases h
    | some f =>
      rw [hf] at h
      cases hr : loadEnvAux u dataDir rest with
      | error e => rw [hr] at h; cases h
      | ok m2 =>
        rw [hr] at h
        simp only [Except.ok.injEq] at h
        subst h
        simp [ih m2 hr]

theorem loadEnvAux_missing (u : Unicodedata) (dataDir : List DirEntry) :
    ∀ schools : List String,
      (∃ s ∈ schools, find_file_by_name u dataDir (envFilename s) = none) →
      ∃ s ∈ schools, find_file_by_name u dataDir (envFilename s) = none ∧
        loadEnvAux u dataDir schools = .error (missingEnvMsg s) := by
  intro schools
  induction schools with
  | nil =>
    rintro ⟨s, hs, _⟩
    cases hs
  | cons s0 rest ih =>
    rintro ⟨s, hs, hnone⟩
    cases hf : find_file_by_name u dataDir (envFilename s0) with
    | none =>
      exact ⟨s0, List.mem_cons_self s0 rest, hf, by simp [loadEnvAux, hf]⟩
    | some f =>
      have hs_rest : s ∈ rest := by
        rcases List.mem_cons.mp hs with h | h
        · subst h
          rw [hf] at hnone
          cases hnone
        · exact h
      obtain ⟨t, ht, htn, herr⟩ := ih ⟨s, hs_rest, hnone⟩
      refine ⟨t, List.mem_cons_of_mem _ ht, htn, ?_⟩
      simp [loadEnvAux, hf, herr]

theorem load_growth_data_ok (dataDir : List DirEntry) (gd : List (String × List GrowthRow))
    (h : load_growth_data dataDir = .ok gd) :
    ∃ x, dataDir.find? isXlsxEntry = some x ∧
      gd = x.sheets.map (fun s => (s.1, s.2.map (tagGrowthRow s.1))) := by
  unfold load_growth_data at h
  cases hx : dataDir.find? isXlsxEntry with
  | none => rw [hx] at h; cases h
  | some x =>
    rw [hx] at h
    refine ⟨x, rfl, ?_⟩
    injection h with h2
    exact h2.symm

/-- The environment mapping a successful load of dirC2 produces. -/
def envLoadedC2 : List (String × List EnvRow) :=
  siteKeys.map (fun s => (s, [tagEnvRow s sampleEnvRowRaw]))

/-- The growth mapping a successful load of dirC2 produces. -/
def gdC2 : List (String × List GrowthRow) :=
  [("엑스고", [GrowthRow.mk 5 3 40 "엑스고" none])]

/-- Claim C2 counterexample: on the concrete directory dirC2 both
loaders succeed, yet the growth mapping's key set is the workbook's
sheet name, not the four fixed site keys, so the claim as stated is
false. -/
theorem C2_counterexample :
    load_environment_data uid dirC2 = .ok envLoadedC2 ∧
    load_growth_data dirC2 = .ok gdC2 ∧
    ("엑스고" : String) ∉ siteKeys ∧
    gdC2.map Prod.fst ≠ siteKeys := by
  refine ⟨rfl, rfl, by decide, by decide⟩

/-- Claim C2 (amended): after a load in which both loaders succeed, the
environment mapping contains exactly the four fixed site keys, while
the growth mapping contains exactly one key per sheet of the discovered
workbook (the sheet names), which need not be the four site keys. -/
theorem C2_load_key_sets (u : Unicodedata) (dataDir : List DirEntry)
    (env : List (String × List EnvRow)) (gd : List (String × List GrowthRow))
    (henv : load_environment_data u dataDir = .ok env)
    (hgd : load_growth_data dataDir = .ok gd) :
    env.map Prod.fst = siteKeys ∧
    ∃ x, dataDir.find? isXlsxEntry = some x ∧ gd.map Prod.fst = x.sheets.map Prod.fst := by
  constructor
  · exact loadEnvAux_ok_keys u dataDir siteKeys env henv
  · obtain ⟨x, hx, hgd2⟩ := load_growth_data_ok dataDir gd hgd
    refine ⟨x, hx, ?_⟩
    subst hgd2
    rw [List.map_map]
    rfl

/-- Witness for C2 (amended) on the concrete directory dirC2. -/
theorem C2_load_key_sets_witness :
    envLoadedC2.map Prod.fst = siteKeys ∧
    ∃ x, dirC2.find? isXlsxEntry = some x ∧ gdC2.map Prod.fst = x.sheets.map Prod.fst :=
  C2_load_key_sets uid dirC2 envLoadedC2 gdC2 rfl rfl

/-- Claim C4: when any of the four per-site environment files cannot be
resolved, the environment loader fails with the message naming a
missing filename, and the session stops before any rendering. -/
theorem C4_missing_env_file_aborts (u : Unicodedata) (dataDir : List DirEntry)
    (school_option : String)
    (h : ∃ s ∈ siteKeys, find_file_by_name u dataDir (envFilename s) = none) :
    (∃ s ∈ siteKeys, find_file_by_name u dataDir (envFilename s) = none ∧
      load_environment_data u dataDir = .error (missingEnvMsg s)) ∧
    runSession u dataDir school_option = none := by
  obtain ⟨s, hs, hn, herr⟩ := loadEnvAux_missing u dataDir siteKeys h
  refine ⟨⟨s, hs, hn, herr⟩, ?_⟩
  unfold runSession
  rw [show load_environment_data u dataDir = .error (missingEnvMsg s) from herr]

/-- Witness for C4 on the empty data directory. -/
theorem C4_missing_env_file_aborts_witness :
    (∃ s ∈ siteKeys, find_file_by_name uid [] (envFilename s) = none ∧
      load_environment_data uid [] = .error (missingEnvMsg s)) ∧
    runSession uid [] "전체" = none :=
  C4_missing_env_file_aborts uid [] "전체" (by decide)

/-- Claim C5: a workbook sheet whose name is outside the reference
table is still loaded, its rows carrying a null target EC, and the
growth load does not fail because of it. -/
theorem C5_unknown_sheet_still_loaded (dataDir : List DirEntry) (x : DirEntry)
    (sheet : String) (rows : List GrowthRowRaw)
    (hx : dataDir.find? isXlsxEntry = some x)
    (hmem : (sheet, rows) ∈ x.sheets)
    (hsheet : sheet ∉ siteKeys) :
    ∃ gd, load_growth_data dataDir = .ok gd ∧
      (sheet, rows.map (tagGrowthRow sheet)) ∈ gd ∧
      ∀ r ∈ rows.map (tagGrowthRow sheet), r.ec = none := by
  refine ⟨x.sheets.map (fun s => (s.1, s.2.map (tagGrowthRow s.1))), ?_, ?_, ?_⟩
  · unfold load_growth_data
    rw [hx]
  · exact List.mem_map.mpr ⟨(sheet, rows), hmem, rfl⟩
  · intro r hr
    obtain ⟨r0, _, hr0⟩ := List.mem_map.mp hr
    subst hr0
    exact (alookup_none_iff sheet SCHOOL_EC_INFO).mpr hsheet

/-- Witness for C5 on the concrete directory dirC2. -/
theorem C5_unknown_sheet_still_loaded_witness :
    ∃ gd, load_growth_data dirC2 = .ok gd ∧
      ("엑스고", [GrowthRowRaw.mk 5 3 40].map (tagGrowthRow "엑스고")) ∈ gd ∧
      ∀ r ∈ [GrowthRowRaw.mk 5 3 40].map (tagGrowthRow "엑스고"), r.ec = none :=
  C5_unknown_sheet_still_loaded dirC2 strangeWorkbookEntry "엑스고" [GrowthRowRaw.mk 5 3 40]
    (by decide) (by decide) (by decide)

theorem overviewRows_error_of_unknown :
    ∀ gd : List (String × List GrowthRow),
      (∃ p ∈ gd, p.1 ∉ siteKeys) → ∃ e, overviewRows gd = .error e := by
  intro gd
  induction gd with
  | nil =>
    rintro ⟨p, hp, _⟩
    cases hp
  | cons q rest ih =>
    rintro ⟨p, hp, hnot⟩
    obtain ⟨s, df⟩ := q
    cases hec : alookup s SCHOOL_EC_INFO with
    | none => exact ⟨s, by simp [overviewRows, hec]⟩
    | some ecT =>
      have hsmem : s ∈ siteKeys := by
        have hiss : (alookup s SCHOOL_EC_INFO).isSome = true := by rw [hec]; rfl
        exact (alookup_isSome_iff s SCHOOL_EC_INFO).mp hiss
      have hp_rest : p ∈ rest := by
        rcases List.mem_cons.mp hp with h | h
        · subst h
          exact absurd hsmem hnot
        · exact h
      obtain ⟨e, he⟩ := ih ⟨p, hp_rest, hnot⟩
      cases hcol : alookup s SCHOOL_COLOR with
      | none => exact ⟨s, by simp [overviewRows, hec, hcol]⟩
      | some color => exact ⟨e, by simp [overviewRows, hec, hcol, he]⟩

/-- Claim C6: when the loaded growth mapping holds a sheet name outside
the fixed reference tables, the load has succeeded but the Overview tab
raises a key-lookup error instead of rendering. -/
theorem C6_unknown_sheet_breaks_overview (dataDir : List DirEntry)
    (gd : List (String × List GrowthRow))
    (_hload : load_growth_data dataDir = .ok gd)
    (h : ∃ p ∈ gd, p.1 ∉ siteKeys) :
    (∃ e, overviewRows gd = .error e) ∧
    ∀ env_data, ∃ e, overviewTab env_data gd = .error e := by
  obtain ⟨e, he⟩ := overviewRows_error_of_unknown gd h
  exact ⟨⟨e, he⟩, fun env_data => ⟨e, by simp [overviewTab, he]⟩⟩

/-- Witness for C6 on the concrete directory dirC2. -/
theorem C6_unknown_sheet_breaks_overview_witness :
    (∃ e, overviewRows gdC2 = .error e) ∧
    ∀ env_data, ∃ e, overviewTab env_data gdC2 = .error e :=
  C6_unknown_sheet_breaks_overview dirC2 gdC2 rfl (by decide)

/-- Claim C8: the optimal-EC metric card of the Overview summary is the
fixed reference constant 2.0 for every loaded dataset; it does not
depend on the loaded environment or growth data. -/
theorem C8_optimal_ec_metric_constant :
    ∀ (env1 env2 : List (String × List EnvRow)) (gd1 gd2 : List (String × List GrowthRow)),
      (overviewMetrics env1 gd1).optimal_ec = 2 ∧
      (overviewMetrics env1 gd1).optimal_ec = (overviewMetrics env2 gd2).optimal_ec :=
  fun _ _ _ _ => ⟨rfl, rfl⟩

/-- Claim C9 counterexample: in envC9eq the sites have unequal row
counts, yet the flattened mean temperature equals the mean of the
per-site mean temperatures, refuting the assertion that the two values
differ whenever row counts are unequal. -/
theorem C9_counterexample :
    (∃ p ∈ envC9eq, ∃ q ∈ envC9eq, p.2.length ≠ q.2.length) ∧
    (overviewMetrics envC9eq []).avg_temp = meanOfSiteTempMeans envC9eq := by
  constructor
  · decide
  · norm_num [overviewMetrics, meanQ, envAllRows, envC9eq, envRowT, meanOfSiteTempMeans,
      perSiteTempMeans]

/-- Claim C9 (amended): the Overview average temperature and humidity
are the flattened means over all environment rows of all sites pooled,
each row weighted equally (row sum divided by row count), not the mean
of the per-site means; the two aggregates can differ when sites have
unequal row counts, as envC9diff realizes. -/
theorem C9_flattened_mean :
    (∀ (env_data : List (String × List EnvRow)) (gd : List (String × List GrowthRow)),
      (overviewMetrics env_data gd).avg_temp
          = ((envAllRows env_data).map EnvRow.temperature).sum
            / ((envAllRows env_data).length : ℚ) ∧
      (overviewMetrics env_data gd).avg_hum
          = ((envAllRows env_data).map EnvRow.humidity).sum
            / ((envAllRows env_data).length : ℚ)) ∧
    ((∃ p ∈ envC9diff, ∃ q ∈ envC9diff, p.2.length ≠ q.2.length) ∧
      (overviewMetrics envC9diff []).avg_temp ≠ meanOfSiteTempMeans envC9diff) := by
  constructor
  · intro env_data gd
    constructor
    · simp [overviewMetrics, meanQ, List.length_map]
    · simp [overviewMetrics, meanQ, List.length_map]
  · refine ⟨by decide, ?_⟩
    norm_num [overviewMetrics, meanQ, envAllRows, envC9diff, envRowT, meanOfSiteTempMeans,
      perSiteTempMeans]

/-- Claim C10: both exports serialize the row-wise concatenation of all
per-site tables, and their content is identical for every value of the
sidebar site-filter selection, both at the dashboard level and across a
whole session. -/
theorem C10_exports_ignore_site_filter :
    ∀ (env_data : List (String × List EnvRow)) (growth_data : List (String × List GrowthRow))
      (f1 f2 : String),
      (renderDashboard env_data growth_data f1).envCsv = envAllRows env_data ∧
      (renderDashboard env_data growth_data f1).growthXlsx = growthAll growth_data ∧
      (renderDashboard env_data growth_data f1).envCsv
          = (renderDashboard env_data growth_data f2).envCsv ∧
      (renderDashboard env_data growth_data f1).growthXlsx
          = (renderDashboard env_data growth_data f2).growthXlsx ∧
      ∀ (u : Unicodedata) (dataDir : List DirEntry),
        (runSession u dataDir f1).map Dashboard.envCsv
            = (runSession u dataDir f2).map Dashboard.envCsv ∧
        (runSession u dataDir f1).map Dashboard.growthXlsx
            = (runSession u dataDir f2).map Dashboard.growthXlsx := by
  intro env_data growth_data f1 f2
  refine ⟨rfl, rfl, rfl, rfl, ?_⟩
  intro u dataDir
  unfold runSession
  cases load_environment_data u dataDir <;> cases load_growth_data dataDir <;> exact ⟨rfl, rfl⟩

theorem filter_sub {α : Type} (p q : α → Bool) (himp : ∀ a, q a = true → p a = true) :
    ∀ l : List α, (l.filter p).filter q = l.filter q := by
  intro l
  induction l with
  | nil => rfl
  | cons x xs ih =>
    cases hp : p x with
    | true =>
      cases hq : q x with
      | true => simp [List.filter_cons, hp, hq, ih]
      | false => simp [List.filter_cons, hp, hq, ih]
    | false =>
      have hq : q x = false := by
        cases hq2 : q x with
        | true => rw [himp x hq2] at hp; cases hp
        | false => rfl
      simp [List.filter_cons, hp, hq, ih]

theorem filterMap_ec_of_filter :
    ∀ rows : List GrowthRow,
      (rows.filter (fun r => r.ec.isSome)).filterMap GrowthRow.ec
        = rows.filterMap GrowthRow.ec := by
  intro rows
  induction rows with
  | nil => rfl
  | cons r rest ih =>
    cases h : r.ec with
    | none => simp [List.filter_cons, List.filterMap_cons, h, ih]
    | some v => simp [List.filter_cons, List.filterMap_cons, h, ih]

theorem ecRows_filter (k : ℚ) (rows : List GrowthRow) :
    ecRows (rows.filter (fun r => r.ec.isSome)) k = ecRows rows k := by
  unfold ecRows
  apply filter_sub
  intro r h
  have h2 : r.ec = some k := of_decide_eq_true h
  rw [h2]
  rfl

theorem ecKeys_filter (rows : List GrowthRow) :
    ecKeys (rows.filter (fun r => r.ec.isSome)) = ecKeys rows := by
  unfold ecKeys
  rw [filterMap_ec_of_filter]

theorem ecCell_filter (f : GrowthRow → ℚ) (k : ℚ) (rows : List GrowthRow) :
    ecCell f (rows.filter (fun r => r.ec.isSome)) k = ecCell f rows k := by
  unfold ecCell
  rw [ecRows_filter]

theorem ecGroupBy_filter (f : GrowthRow → ℚ) (rows : List GrowthRow) :
    ecGroupBy f (rows.filter (fun r => r.ec.isSome)) = ecGroupBy f rows := by
  unfold ecGroupBy
  rw [ecKeys_filter]
  have hfun : (fun k => (k, ecCell f (rows.filter (fun r => r.ec.isSome)) k))
      = (fun k => (k, ecCell f rows k)) := funext (fun k => by rw [ecCell_filter])
  rw [hfun]

theorem ecGroupSize_filter (rows : List GrowthRow) :
    ecGroupSize (rows.filter (fun r => r.ec.isSome)) = ecGroupSize rows := by
  unfold ecGroupSize
  rw [ecKeys_filter]
  have hfun : (fun k => (k, (ecRows (rows.filter (fun r => r.ec.isSome)) k).length))
      = (fun k => (k, (ecRows rows k).length)) := funext (fun k => by rw [ecRows_filter])
  rw [hfun]

theorem ec_group_filter (rows : List GrowthRow) :
    ec_group (rows.filter (fun r => r.ec.isSome)) = ec_group rows :=
  ecGroupBy_filter GrowthRow.freshWeight rows

theorem max_ec_filter (rows : List GrowthRow) :
    max_ec (rows.filter (fun r => r.ec.isSome)) = max_ec rows := by
  unfold max_ec
  rw [ec_group_filter]

theorem mem_insertSorted (x a : ℚ) :
    ∀ l : List ℚ, a ∈ insertSorted x l ↔ a = x ∨ a ∈ l := by
  intro l
  induction l with
  | nil => simp [insertSorted]
  | cons y ys ih =>
    by_cases h : x ≤ y
    · simp [insertSorted, h]
    · simp only [insertSorted, if_neg h, List.mem_cons, ih]
      tauto

theorem mem_sortQ (a : ℚ) : ∀ l : List ℚ, a ∈ sortQ l ↔ a ∈ l := by
  intro l
  induction l with
  | nil => simp [sortQ]
  | cons x xs ih =>
    show a ∈ insertSorted x (sortQ xs) ↔ a ∈ x :: xs
    rw [mem_insertSorted, ih]
    simp [List.mem_cons]

theorem pickMax_cons (g p : ℚ × ℚ) (rest : List (ℚ × ℚ)) :
    pickMax g (p :: rest) = pickMax (if p.2 > g.2 then p else g) rest := rfl

theorem pickMax_spec : ∀ (gs : List (ℚ × ℚ)) (g : ℚ × ℚ),
    ∃ l₁ l₂, g :: gs = l₁ ++ pickMax g gs :: l₂ ∧
      (∀ q ∈ l₁, q.2 < (pickMax g gs).2) ∧
      (∀ q ∈ g :: gs, q.2 ≤ (pickMax g gs).2) := by
  intro gs
  induction gs with
  | nil =>
    intro g
    refine ⟨[], [], rfl, by simp, ?_⟩
    intro q hq
    rcases List.mem_cons.mp hq with he | hm
    · subst he
      exact le_refl _
    · cases hm
  | cons p rest ih =>
    intro g
    rw [pickMax_cons]
    by_cases h : p.2 > g.2
    · rw [if_pos h]
      obtain ⟨l₁, l₂, hd, hlt, hle⟩ := ih p
      have hp_le : p.2 ≤ (pickMax p rest).2 := hle p (List.mem_cons_self p rest)
      refine ⟨g :: l₁, l₂, ?_, ?_, ?_⟩
      · rw [List.cons_append, ← hd]
      · intro q hq
        rcases List.mem_cons.mp hq with he | hm
        · subst he
          exact lt_of_lt_of_le h hp_le
        · exact hlt q hm
      · intro q hq
        rcases List.mem_cons.mp hq with he | hm
        · subst he
          exact le_of_lt (lt_of_lt_of_le h hp_le)
        · exact hle q hm
    · rw [if_neg h]
      have hple : p.2 ≤ g.2 := not_lt.mp h
      obtain ⟨l₁, l₂, hd, hlt, hle⟩ := ih g
      have hg_le : g.2 ≤ (pickMax g rest).2 := hle g (List.mem_cons_self g rest)
      cases l₁ with
      | nil =>
        rw [List.nil_append] at hd
        injection hd with h1 h2
        refine ⟨[], p :: rest, ?_, by simp, ?_⟩
        · rw [List.nil_append, ← h1]
        · intro q hq
          rcases List.mem_cons.mp hq with he | hm
          · subst he
            exact hg_le
          · rcases List.mem_cons.mp hm with he2 | hm2
            · subst he2
              exact le_trans hple hg_le
            · exact hle q (List.mem_cons_of_mem g hm2)
      | cons a l₁p =>
        rw [List.cons_append] at hd
        injection hd with h1 h2
        have ha_lt : a.2 < (pickMax g rest).2 := hlt a (List.mem_cons_self a l₁p)
        have hga : g.2 = a.2 := by rw [h1]
        refine ⟨g :: p :: l₁p, l₂, ?_, ?_, ?_⟩
        · rw [List.cons_append, List.cons_append, ← h2]
        · intro q hq
          rcases List.mem_cons.mp hq with he | hm
          · have hqa : q.2 = a.2 := by rw [he, h1]
            rw [hqa]
            exact ha_lt
          · rcases List.mem_cons.mp hm with he2 | hm2
            · have hqp : q.2 ≤ g.2 := by rw [he2]; exact hple
              exact lt_of_le_of_lt (le_trans hqp (le_of_eq hga)) ha_lt
            · exact hlt q (List.mem_cons_of_mem a hm2)
        · intro q hq
          rcases List.mem_cons.mp hq with he | hm
          · rw [show q.2 = g.2 from by rw [he]]
            exact hg_le
          · rcases List.mem_cons.mp hm with he2 | hm2
            · rw [show q.2 = p.2 from by rw [he2]]
              exact le_trans hple hg_le
            · exact hle q (List.mem_cons_of_mem g hm2)

theorem max_ec_key_from_rows (rows : List GrowthRow) (k : ℚ) (h : max_ec rows = some k) :
    ∃ r ∈ rows, r.ec = some k := by
  unfold max_ec at h
  cases hg : ec_group rows with
  | nil => rw [hg] at h; cases h
  | cons g gs =>
    rw [hg] at h
    injection h with h1
    obtain ⟨l₁, l₂, hd, _, _⟩ := pickMax_spec gs g
    have hmem : pickMax g gs ∈ g :: gs := by
      rw [hd]
      exact List.mem_append.mpr (Or.inr (List.mem_cons_self _ _))
    have hmem2 : pickMax g gs ∈ ec_group rows := hg ▸ hmem
    unfold ec_group ecGroupBy at hmem2
    obtain ⟨k0, hk0, he⟩ := List.mem_map.mp hmem2
    have hk : k = k0 := by
      rw [← h1, ← he]
    have hk0d : k0 ∈ (rows.filterMap GrowthRow.ec).dedup := (mem_sortQ k0 _).mp hk0
    have hk0f : k0 ∈ rows.filterMap GrowthRow.ec := List.mem_dedup.mp hk0d
    obtain ⟨r, hr, hrk⟩ := List.mem_filterMap.mp hk0f
    exact ⟨r, hr, by rw [hk]; exact hrk⟩

theorem ec_group_ne_nil_of_some (rows : List GrowthRow) (r : GrowthRow) (hr : r ∈ rows)
    (v : ℚ) (hv : r.ec = some v) : ec_group rows ≠ [] := by
  unfold ec_group ecGroupBy
  intro hcon
  rw [List.map_eq_nil_iff] at hcon
  have hvk : v ∈ ecKeys rows := by
    unfold ecKeys
    rw [mem_sortQ, List.mem_dedup]
    exact List.mem_filterMap.mpr ⟨r, hr, hv⟩
  rw [hcon] at hvk
  cases hvk

/-- Claim C1: the optimal EC flagged in the Growth tab summary cards is
the EC level of the first group (in the grouping's ascending-key
iteration order) whose mean fresh weight is maximal among all group
means: strictly larger means are never earlier, every mean is bounded
by it, and ties go to the first group encountered.  On the worked
example with group means 5.0, 9.2, 3.1, 2.0 at EC levels 1, 2, 4, 8 the
selected level is EC 2. -/
theorem C1_optimal_ec_first_max (rows : List GrowthRow)
    (h : ∃ r ∈ rows, r.ec.isSome = true) :
    (∃ k m l₁ l₂,
      max_ec rows = some k ∧
      ec_group rows = l₁ ++ (k, m) :: l₂ ∧
      (∀ q ∈ l₁, q.2 < m) ∧
      (∀ q ∈ ec_group rows, q.2 ≤ m)) ∧
    ec_group exampleGrowthRows = [(1, 5), (2, 46/5), (4, 31/10), (8, 2)] ∧
    max_ec exampleGrowthRows = some 2 := by
  have hex : ec_group exampleGrowthRows = [(1, 5), (2, 46/5), (4, 31/10), (8, 2)] := by
    norm_num [ec_group, ecGroupBy, ecKeys, sortQ, insertSorted, ecCell, ecRows, meanQ,
      exampleGrowthRows, List.dedup_cons_of_not_mem, List.dedup_nil, List.filterMap_cons,
      List.filter_cons]
  refine ⟨?_, hex, ?_⟩
  · obtain ⟨r, hr, hsome⟩ := h
    obtain ⟨v, hv⟩ := Option.isSome_iff_exists.mp hsome
    have hne : ec_group rows ≠ [] := ec_group_ne_nil_of_some rows r hr v hv
    cases hg : ec_group rows with
    | nil => exact absurd hg hne
    | cons g gs =>
      obtain ⟨l₁, l₂, hd, hlt, hle⟩ := pickMax_spec gs g
      refine ⟨(pickMax g gs).1, (pickMax g gs).2, l₁, l₂, ?_, ?_, ?_, ?_⟩
      · unfold max_ec
        rw [hg]
      · exact hd
      · exact hlt
      · intro q hq
        exact hle q hq
  · unfold max_ec
    rw [hex]
    norm_num [pickMax]

/-- Witness for C1 on the worked-example rows. -/
theorem C1_optimal_ec_first_max_witness :
    (∃ k m l₁ l₂,
      max_ec exampleGrowthRows = some k ∧
      ec_group exampleGrowthRows = l₁ ++ (k, m) :: l₂ ∧
      (∀ q ∈ l₁, q.2 < m) ∧
      (∀ q ∈ ec_group exampleGrowthRows, q.2 ≤ m)) ∧
    ec_group exampleGrowthRows = [(1, 5), (2, 46/5), (4, 31/10), (8, 2)] ∧
    max_ec exampleGrowthRows = some 2 :=
  C1_optimal_ec_first_max exampleGrowthRows (by decide)

/-- Claim C7: growth rows whose target EC is null are excluded from all
four per-EC aggregates (mean fresh weight, mean leaf count, mean shoot
length, group size) and from the optimal-EC selection, whose selected
level always comes from a row with a non-null EC; yet every loaded row,
null EC or not, remains in the concatenated growth table that is
displayed and exported. -/
theorem C7_null_ec_rows_excluded (growth_data : List (String × List GrowthRow))
    (_hnull : ∃ r ∈ growthAll growth_data, r.ec = none) :
    ec_group ((growthAll growth_data).filter (fun r => r.ec.isSome))
        = ec_group (growthAll growth_data) ∧
    ecGroupBy GrowthRow.leafCount ((growthAll growth_data).filter (fun r => r.ec.isSome))
        = ecGroupBy GrowthRow.leafCount (growthAll growth_data) ∧
    ecGroupBy GrowthRow.shootLength ((growthAll growth_data).filter (fun r => r.ec.isSome))
        = ecGroupBy GrowthRow.shootLength (growthAll growth_data) ∧
    ecGroupSize ((growthAll growth_data).filter (fun r => r.ec.isSome))
        = ecGroupSize (growthAll growth_data) ∧
    max_ec ((growthAll growth_data).filter (fun r => r.ec.isSome))
        = max_ec (growthAll growth_data) ∧
    (∀ k, max_ec (growthAll growth_data) = some k →
      ∃ r ∈ growthAll growth_data, r.ec = some k) ∧
    (∀ r : GrowthRow, r ∈ growthAll growth_data ↔ ∃ p ∈ growth_data, r ∈ p.2) := by
  refine ⟨ec_group_filter _, ecGroupBy_filter _ _, ecGroupBy_filter _ _, ecGroupSize_filter _,
    max_ec_filter _, ?_, ?_⟩
  · intro k hk
    exact max_ec_key_from_rows _ k hk
  · intro r
    unfold growthAll
    rw [List.mem_flatten]
    constructor
    · rintro ⟨l, hl, hr⟩
      obtain ⟨p, hp, he⟩ := List.mem_map.mp hl
      refine ⟨p, hp, ?_⟩
      rw [he]
      exact hr
    · rintro ⟨p, hp, hr⟩
      exact ⟨p.2, List.mem_map.mpr ⟨p, hp, rfl⟩, hr⟩

/-- Witness for C7 on the concrete growth mapping gdC7. -/
theorem C7_null_ec_rows_excluded_witness :
    ec_group ((growthAll gdC7).filter (fun r => r.ec.isSome))
        = ec_group (growthAll gdC7) ∧
    ecGroupBy GrowthRow.leafCount ((growthAll gdC7).filter (fun r => r.ec.isSome))
        = ecGroupBy GrowthRow.leafCount (growthAll gdC7) ∧
    ecGroupBy GrowthRow.shootLength ((growthAll gdC7).filter (fun r => r.ec.isSome))
        = ecGroupBy GrowthRow.shootLength (growthAll gdC7) ∧
    ecGroupSize ((growthAll gdC7).filter (fun r => r.ec.isSome))
        = ecGroupSize (growthAll gdC7) ∧
    max_ec ((growthAll gdC7).filter (fun r => r.ec.isSome)) = max_ec (growthAll gdC7) ∧
    (∀ k, max_ec (growthAll gdC7) = some k → ∃ r ∈ growthAll gdC7, r.ec = some k) ∧
    (∀ r : GrowthRow, r ∈ growthAll gdC7 ↔ ∃ p ∈ gdC7, r ∈ p.2) :=
  C7_null_ec_rows_excluded gdC7 (by decide)
